import Mathlib

/- Verification of the k8s-user provisioning script (src/k8s_user/main.py) against its
specification.  The script is a linear orchestration of cluster-API and kubectl calls;
we embed it as a pure state-transition function over an explicit model of the cluster
state, the interactive answer stream, the asynchronous CSR-status oracle and the
destination kubeconfig file, recording every externally visible action in an effect
trace.  The kubectl collaborator is modelled by its contract: existence checks report
ground truth about the cluster state (the contract itself is verified separately on
`resource_exists`), and the `kubectl config` subcommands edit the destination file by
named upsert. -/

/-- Error taxonomy of a run (spec section 7).  The Python code raises `RuntimeError` or
`TimeoutError`; each constructor corresponds to one distinct raise site in `main.py`:
`configError` to line 63, `roleNotFound` to line 438, `certificateTimeout` to line 168
and `unexpectedQueryFailure` to line 246. -/
inductive RunError
  | configError
  | roleNotFound
  | certificateTimeout
  | unexpectedQueryFailure
deriving DecidableEq, Repr

instance : DecidableEq (Except RunError Unit) := fun a b =>
  match a, b with
  | Except.ok (), Except.ok () => isTrue rfl
  | Except.error e, Except.error f =>
      if h : e = f then isTrue (by rw [h]) else isFalse (by simp [h])
  | Except.ok _, Except.error _ => isFalse (by simp)
  | Except.error _, Except.ok _ => isFalse (by simp)

/-- Base64 alphabet value of a character; padding and foreign characters yield `none`
and are discarded, as `base64.b64decode` discards them for the default alphabet. -/
def b64Index (c : Char) : Option Nat :=
  if 'A' ≤ c ∧ c ≤ 'Z' then some (c.toNat - 'A'.toNat)
  else if 'a' ≤ c ∧ c ≤ 'z' then some (c.toNat - 'a'.toNat + 26)
  else if '0' ≤ c ∧ c ≤ '9' then some (c.toNat - '0'.toNat + 52)
  else if c = '+' then some 62
  else if c = '/' then some 63
  else none

/-- Reassemble bytes from the 6-bit groups of a base64 string; incomplete trailing bits
are dropped. -/
def b64Bytes : List Nat → List Nat
  | a :: b :: c :: d :: rest =>
      (a * 4 + b / 16) :: ((b % 16) * 16 + c / 4) :: ((c % 4) * 64 + d) :: b64Bytes rest
  | [a, b, c] => [a * 4 + b / 16, (b % 16) * 16 + c / 4]
  | [a, b] => [a * 4 + b / 16]
  | _ => []

/-- Model of `base64.b64decode` on the standard alphabet, returning byte values. -/
def b64decode (s : String) : List Nat :=
  b64Bytes (s.data.filterMap b64Index)

/-- `KubeConfig.role_name` (main.py lines 81-86): derived from the user name unless an
explicit role was provided. -/
def role_name (monitor_user : String) (existing_role : Option String) : String :=
  match existing_role with
  | none => monitor_user ++ "-role"
  | some r => r

/-- `KubeConfig.role_binding_name` (main.py lines 88-94): user name followed by the
role name. -/
def role_binding_name (monitor_user : String) (existing_role : Option String) : String :=
  monitor_user ++ "-" ++ role_name monitor_user existing_role

/-- `KubeConfig.cert_request_name` (main.py lines 96-99); it does not depend on the
explicit role. -/
def cert_request_name (monitor_user : String) : String :=
  monitor_user ++ "-cr"

/-- The affirmative test of both overwrite prompts: the code declines on
`ans not in ("y", "Y")` (main.py lines 423 and 432). -/
def isYes (s : String) : Bool := s == "y" || s == "Y"

/-- Python truthiness of the `existing_role` attribute as used in
`if role_exists and not self.existing_role` and
`elif self.existing_role and not role_exists` (main.py lines 430 and 437):
`None` and the empty string are falsy. -/
def pyTruthy : Option String → Bool
  | none => false
  | some s => !(s == "")

/-- The certificate-approval poll loop of `KubeConfig.approve_k8s_csr`
(main.py lines 164-175).  `cert n` is the `status.certificate` field observed at the
n-th read of the CSR: read 0 is the response of the approval call, and read n happens
after n sleeps of 5 seconds, at elapsed time `5 * n` seconds.  After each sleep the loop
raises `TimeoutError` when the elapsed time `5 * (n + 1)` exceeds 300 seconds, and
otherwise re-reads the status. -/
def approveLoop (cert : Nat → Option String) (n : Nat) : Except RunError String :=
  match cert n with
  | some c => Except.ok c
  | none =>
    if 5 * (n + 1) > 300 then Except.error RunError.certificateTimeout
    else approveLoop cert (n + 1)
termination_by 61 - n
decreasing_by omega

/-- `KubeConfig.approve_k8s_csr`: poll until `status.certificate` is populated, then
base64-decode it (main.py line 173). -/
def approve_k8s_csr (cert : Nat → Option String) : Except RunError (List Nat) :=
  (approveLoop cert 0).map b64decode

/-- Outcome of a `kubectl` invocation as seen by the script: the process return code
and its standard error text. -/
structure CompletedProcess where
  returncode : Int
  stderr : String
deriving DecidableEq, Repr

/-- `KubeConfig.resource_exists` (main.py lines 230-247) as a function of the outcome of
the underlying `kubectl get` call: success means the resource exists, a failure whose
error text contains `NotFound` means it does not, and any other failure is the hard
error the spec names `UnexpectedQueryFailure`. -/
def resource_exists (res : CompletedProcess) : Except RunError Bool :=
  if res.returncode ≠ 0 then
    if "NotFound".data <:+: res.stderr.data then Except.ok false
    else Except.error RunError.unexpectedQueryFailure
  else Except.ok true

/-- One entry of the `clusters` list of the source kubeconfig YAML. -/
structure SourceCluster where
  name : String
  server : String
  certAuthorityData : String
deriving DecidableEq, Repr

/-- The fields of a constructed `KubeConfig` object that the run uses. -/
structure Cfg where
  monitor_user : String
  existing_role : Option String
  config_clusters : List SourceCluster
  cluster_index : Nat
deriving DecidableEq, Repr

/-- `KubeConfig.__init__` (main.py lines 48-64): loading the source file is read-only;
construction fails when the file holds more than one cluster entry (the spec's
`ConfigError`), and otherwise `cluster_index` is 0. -/
def kubeConfigInit (clusters : List SourceCluster) (monitor_user : String)
    (existing_role : Option String) : Except RunError Cfg :=
  if clusters.length > 1 then Except.error RunError.configError
  else Except.ok ⟨monitor_user, existing_role, clusters, 0⟩

/-- `KubeConfig.cluster_name` (main.py lines 66-69).  Out-of-range indexing, impossible
after a successful `kubeConfigInit` on a non-empty source file, is totalised with a
default entry. -/
def Cfg.cluster_name (c : Cfg) : String :=
  (c.config_clusters.getD c.cluster_index ⟨"", "", ""⟩).name

/-- `KubeConfig.cluster_server` (main.py lines 71-74). -/
def Cfg.cluster_server (c : Cfg) : String :=
  (c.config_clusters.getD c.cluster_index ⟨"", "", ""⟩).server

/-- `KubeConfig.k8s_ca` (main.py lines 76-79): the base64 CA data of the source
cluster. -/
def Cfg.k8s_ca (c : Cfg) : String :=
  (c.config_clusters.getD c.cluster_index ⟨"", "", ""⟩).certAuthorityData

/-- The cluster-side resources the script reads and mutates, each addressed by name. -/
structure ClusterState where
  roles : List String
  bindings : List String
  csrs : List String
deriving DecidableEq, Repr

/-- Externally visible actions of a run, in program order. -/
inductive Effect
  | promptBindingOverwrite (answer : String)
  | promptRoleOverwrite (answer : String)
  | deleteClusterRoleBinding (name : String)
  | deleteClusterRole (name : String)
  | deleteCsr (name : String)
  | createClusterRole (name : String)
  | createClusterRoleBinding (name role user : String)
  | createCsr (name : String)
  | approveCsr (name : String)
  | writeTempFile (path : String)
  | removeTempFile (path : String)
  | removeTempDir (path : String)
  | wroteKubeconfig
deriving DecidableEq, Repr

/-- Prompts read from standard input. -/
def Effect.isPrompt : Effect → Bool
  | .promptBindingOverwrite _ => true
  | .promptRoleOverwrite _ => true
  | _ => false

/-- Creation of a cluster-side RBAC or CSR object. -/
def Effect.isCreate : Effect → Bool
  | .createClusterRole _ => true
  | .createClusterRoleBinding _ _ _ => true
  | .createCsr _ => true
  | _ => false

/-- Creation of a cluster role. -/
def Effect.isCreateRole : Effect → Bool
  | .createClusterRole _ => true
  | _ => false

/-- Operations of the certificate-issuance phase on the cluster. -/
def Effect.isCsrOp : Effect → Bool
  | .deleteCsr _ => true
  | .createCsr _ => true
  | .approveCsr _ => true
  | _ => false

/-- A cluster entry of a kubeconfig file; `caData` holds the embedded certificate
authority bytes. -/
structure NamedCluster where
  name : String
  server : String
  caData : List Nat
deriving DecidableEq, Repr

/-- A user entry of a kubeconfig file with embedded certificate and key data. -/
structure NamedUser where
  name : String
  clientCertData : List Nat
  clientKeyData : String
deriving DecidableEq, Repr

/-- A context entry of a kubeconfig file. -/
structure NamedContext where
  name : String
  cluster : String
  user : String
deriving DecidableEq, Repr

/-- Parsed view of a kubeconfig file. -/
structure KubeconfigFile where
  clusters : List NamedCluster
  users : List NamedUser
  contexts : List NamedContext
  currentContext : Option String
deriving DecidableEq, Repr

/-- The state of an absent or empty destination file. -/
def emptyKubeconfig : KubeconfigFile := ⟨[], [], [], none⟩

/-- Model of `kubectl config set-cluster` on the file addressed by `--kubeconfig`: the
entry of that name is replaced when present and appended otherwise; kubectl loads and
rewrites an existing destination file rather than truncating it. -/
def setCluster (f : KubeconfigFile) (c : NamedCluster) : KubeconfigFile :=
  if f.clusters.any (fun x => x.name == c.name) then
    { f with clusters := f.clusters.map (fun x => if x.name == c.name then c else x) }
  else { f with clusters := f.clusters ++ [c] }

/-- Model of `kubectl config set-credentials --embed-certs`: named upsert of a user
entry. -/
def setCredentials (f : KubeconfigFile) (u : NamedUser) : KubeconfigFile :=
  if f.users.any (fun x => x.name == u.name) then
    { f with users := f.users.map (fun x => if x.name == u.name then u else x) }
  else { f with users := f.users ++ [u] }

/-- Model of `kubectl config set-context`: named upsert of a context entry. -/
def setContext (f : KubeconfigFile) (c : NamedContext) : KubeconfigFile :=
  if f.contexts.any (fun x => x.name == c.name) then
    { f with contexts := f.contexts.map (fun x => if x.name == c.name then c else x) }
  else { f with contexts := f.contexts ++ [c] }

/-- Model of `kubectl config use-context`: mark the named context current. -/
def useContext (f : KubeconfigFile) (n : String) : KubeconfigFile :=
  { f with currentContext := some n }

/-- `KubeConfig.create_new_kubeconfig` (main.py lines 344-395) as its effect on the
destination kubeconfig file: set-cluster with the CA bytes decoded from the source file
and re-embedded, set-credentials with the issued certificate and key embedded,
set-context, use-context. -/
def create_new_kubeconfig (cfg : Cfg) (signedCert : List Nat) (keyPem : String)
    (out : KubeconfigFile) : KubeconfigFile :=
  let ctxName := cfg.cluster_name ++ "-" ++ cfg.monitor_user
  useContext
    (setContext
      (setCredentials
        (setCluster out ⟨cfg.cluster_name, cfg.cluster_server, b64decode cfg.k8s_ca⟩)
        ⟨cfg.monitor_user, signedCert, keyPem⟩)
      ⟨ctxName, cfg.cluster_name, cfg.monitor_user⟩)
    ctxName

/-- Everything observable about a finished run: the result (`ok` also covers the
early return of a declined prompt, which the code performs with a plain `return`),
the final cluster state, the effect trace, the temporary files still on disk, and the
state of the destination kubeconfig file. -/
structure RunOutcome where
  result : Except RunError Unit
  state : ClusterState
  effects : List Effect
  tempFiles : List String
  outConfig : KubeconfigFile

/-- `KubeConfig.generate_and_approve_cert` (main.py lines 293-342) followed by
`KubeConfig.create_new_kubeconfig`, executed inside the `tempfile.TemporaryDirectory`
block of `generate_monitor_config` (lines 446-460).  `tmp` is the temporary directory
chosen by the OS; leaving its `with` block removes every path under `tmp`, on the error
path as on the success path.  `caTmp` is the fresh `NamedTemporaryFile` holding the CA
during `create_new_kubeconfig`, deleted when its own `with` block closes.  `keyPem` is
the freshly generated private key (`generate_csr`; RSA key generation is an input of the
model) and `cert` the CSR-status oracle. -/
def certPhase (cfg : Cfg) (st : ClusterState) (out0 : KubeconfigFile)
    (cert : Nat → Option String) (keyPem tmp caTmp : String) (effs : List Effect) :
    RunOutcome :=
  let crName := cert_request_name cfg.monitor_user
  let keyPath := tmp ++ "/monitor.key"
  let certPath := tmp ++ "/monitor.crt"
  let st1 := if crName ∈ st.csrs then { st with csrs := st.csrs.erase crName } else st
  let e1 := if crName ∈ st.csrs then effs ++ [Effect.deleteCsr crName] else effs
  let fs1 : List String := [keyPath]
  let st2 := { st1 with csrs := crName :: st1.csrs }
  let e2 := e1 ++ [Effect.writeTempFile keyPath, Effect.createCsr crName,
    Effect.approveCsr crName]
  match approveLoop cert 0 with
  | Except.error e =>
      { result := Except.error e, state := st2,
        effects := e2 ++ [Effect.removeTempDir tmp],
        tempFiles := fs1.filter (fun p => !(decide (tmp.data <+: p.data))),
        outConfig := out0 }
  | Except.ok c =>
      let fs2 := fs1 ++ [certPath]
      let fs3 := (caTmp :: fs2).erase caTmp
      { result := Except.ok (), state := st2,
        effects := e2 ++ [Effect.writeTempFile certPath, Effect.writeTempFile caTmp,
          Effect.removeTempFile caTmp, Effect.wroteKubeconfig, Effect.removeTempDir tmp],
        tempFiles := fs3.filter (fun p => !(decide (tmp.data <+: p.data))),
        outConfig := create_new_kubeconfig cfg (b64decode c) keyPem out0 }

/-- Lines 440-443 of `generate_monitor_config`: create the role only when no explicit
role was given (`if self.existing_role is None`), create the binding, then enter the
certificate phase. -/
def rbacPhase (cfg : Cfg) (st : ClusterState) (out0 : KubeconfigFile)
    (cert : Nat → Option String) (keyPem tmp caTmp : String) (effs : List Effect) :
    RunOutcome :=
  let rn := role_name cfg.monitor_user cfg.existing_role
  let bn := role_binding_name cfg.monitor_user cfg.existing_role
  let st1 := if cfg.existing_role.isNone then { st with roles := rn :: st.roles } else st
  let e1 := if cfg.existing_role.isNone then effs ++ [Effect.createClusterRole rn]
    else effs
  certPhase cfg { st1 with bindings := bn :: st1.bindings } out0 cert keyPem tmp caTmp
    (e1 ++ [Effect.createClusterRoleBinding bn rn cfg.monitor_user])

/-- Lines 429-438 of `generate_monitor_config`: the cluster-role existence check, the
role-overwrite prompt (asked only when the explicit role is falsy), and the
`RoleNotFound` failure when a truthy explicit role does not exist.  `ans` is the stdin
line this prompt would read. -/
def rolePhase (cfg : Cfg) (st : ClusterState) (out0 : KubeconfigFile)
    (cert : Nat → Option String) (keyPem tmp caTmp : String) (effs : List Effect)
    (ans : String) : RunOutcome :=
  let rn := role_name cfg.monitor_user cfg.existing_role
  if rn ∈ st.roles ∧ ¬ pyTruthy cfg.existing_role then
    if isYes ans then
      rbacPhase cfg { st with roles := st.roles.erase rn } out0 cert keyPem tmp caTmp
        (effs ++ [Effect.promptRoleOverwrite ans, Effect.deleteClusterRole rn])
    else
      { result := Except.ok (), state := st,
        effects := effs ++ [Effect.promptRoleOverwrite ans],
        tempFiles := [], outConfig := out0 }
  else if pyTruthy cfg.existing_role ∧ rn ∉ st.roles then
    { result := Except.error RunError.roleNotFound, state := st, effects := effs,
      tempFiles := [], outConfig := out0 }
  else
    rbacPhase cfg st out0 cert keyPem tmp caTmp effs

/-- `KubeConfig.generate_monitor_config` (main.py lines 413-460): binding-overwrite
prompt, role handling, RBAC creation, certificate issuance, kubeconfig assembly.
`answers` is the stdin stream (`answers k` is the line read by the (k+1)-th prompt of
the run) and `out0` the state of the destination kubeconfig file before the run. -/
def generate_monitor_config (cfg : Cfg) (st0 : ClusterState) (out0 : KubeconfigFile)
    (answers : Nat → String) (cert : Nat → Option String) (keyPem tmp caTmp : String) :
    RunOutcome :=
  let bn := role_binding_name cfg.monitor_user cfg.existing_role
  if bn ∈ st0.bindings then
    if isYes (answers 0) then
      rolePhase cfg { st0 with bindings := st0.bindings.erase bn } out0 cert keyPem tmp
        caTmp [Effect.promptBindingOverwrite (answers 0),
          Effect.deleteClusterRoleBinding bn] (answers 1)
    else
      { result := Except.ok (), state := st0,
        effects := [Effect.promptBindingOverwrite (answers 0)],
        tempFiles := [], outConfig := out0 }
  else
    rolePhase cfg st0 out0 cert keyPem tmp caTmp [] (answers 0)

/-- `main` (main.py lines 488-496): construct the `KubeConfig`, which fails on a
multi-cluster source file before any cluster access, then run
`generate_monitor_config`. -/
def provision (clusters : List SourceCluster) (monitor_user : String)
    (existing_role : Option String) (st0 : ClusterState) (out0 : KubeconfigFile)
    (answers : Nat → String) (cert : Nat → Option String) (keyPem tmp caTmp : String) :
    RunOutcome :=
  match kubeConfigInit clusters monitor_user existing_role with
  | Except.error e =>
      { result := Except.error e, state := st0, effects := [], tempFiles := [],
        outConfig := out0 }
  | Except.ok cfg => generate_monitor_config cfg st0 out0 answers cert keyPem tmp caTmp

/-- Unfolding equation of the poll loop. -/
theorem approveLoop_eq (cert : Nat → Option String) (n : Nat) :
    approveLoop cert n =
      match cert n with
      | some c => Except.ok c
      | none =>
        if 5 * (n + 1) > 300 then Except.error RunError.certificateTimeout
        else approveLoop cert (n + 1) := by
  rw [approveLoop]

/-- When the certificate field stays unpopulated through the deadline, every loop entry
from a read index within the window ends in the timeout error. -/
theorem approveLoop_none (cert : Nat → Option String)
    (hc : ∀ m, m ≤ 60 → cert m = none) :
    ∀ k n, n ≤ 60 → 60 - n < k →
      approveLoop cert n = Except.error RunError.certificateTimeout := by
  intro k
  induction k with
  | zero => intro n _ hk; omega
  | succ k ih =>
    intro n hn hk
    rw [approveLoop_eq, hc n hn]
    show (if 5 * (n + 1) > 300 then Except.error RunError.certificateTimeout
      else approveLoop cert (n + 1)) = Except.error RunError.certificateTimeout
    by_cases h : 5 * (n + 1) > 300
    · rw [if_pos h]
    · rw [if_neg h]
      exact ih (n + 1) (by omega) (by omega)

/-- When the certificate field first becomes populated at a read within the deadline,
the loop returns that value. -/
theorem approveLoop_some (cert : Nat → Option String) :
    ∀ k j n c, j ≤ n → n ≤ 60 → n - j < k → cert n = some c →
      (∀ m, j ≤ m → m < n → cert m = none) →
      approveLoop cert j = Except.ok c := by
  intro k
  induction k with
  | zero => intro j n c h1 _ h3 _ _; omega
  | succ k ih =>
    intro j n c hjn hn hk hc hnone
    rw [approveLoop_eq]
    by_cases hj : j = n
    · subst hj
      rw [hc]
    · have hj' : j < n := by omega
      rw [hnone j (le_refl j) hj']
      show (if 5 * (j + 1) > 300 then Except.error RunError.certificateTimeout
        else approveLoop cert (j + 1)) = Except.ok c
      have hle : ¬ 5 * (j + 1) > 300 := by omega
      rw [if_neg hle]
      exact ih (j + 1) n c (by omega) hn (by omega) hc
        (fun m hm1 hm2 => hnone m (by omega) hm2)

/-- C1: the approval poll loop terminates.  The CSR status is re-read at a fixed
5-second interval (read n happens at elapsed time 5n seconds); if the
signed-certificate field is unpopulated at every read within the 300-second deadline
(reads 0 through 60), the operation fails with `CertificateTimeout` instead of blocking
indefinitely, and if the field becomes populated at some read within the deadline the
loop exits and returns the base64-decoded certificate. -/
theorem approve_poll_terminates (cert : Nat → Option String) :
    ((∀ m, m ≤ 60 → cert m = none) →
      approve_k8s_csr cert = Except.error RunError.certificateTimeout) ∧
    (∀ n c, n ≤ 60 → cert n = some c → (∀ m, m < n → cert m = none) →
      approve_k8s_csr cert = Except.ok (b64decode c)) := by
  constructor
  · intro hc
    unfold approve_k8s_csr
    rw [approveLoop_none cert hc 61 0 (by omega) (by omega)]
    rfl
  · intro n c hn hc hnone
    unfold approve_k8s_csr
    rw [approveLoop_some cert (n + 1) 0 n c (by omega) hn (by omega) hc
      (fun m _ hm => hnone m hm)]
    rfl

/-- C1 witness: a status oracle that never populates the certificate field yields
`CertificateTimeout`. -/
theorem approve_poll_terminates_witness :
    approve_k8s_csr (fun _ => none) = Except.error RunError.certificateTimeout :=
  (approve_poll_terminates (fun _ => none)).1 (fun _ _ => rfl)

/-- C2: name derivation is a pure function of the user name and the optional explicit
role name: with no explicit role the role name is `u-role`, the binding name `u-u-role`
and the CSR name `u-cr`; with explicit role `r` the role name is `r`, the binding name
`u-r`, and the CSR name is still `u-cr` (the explicit role never changes the CSR
name). -/
theorem name_derivation (u r : String) :
    role_name u none = u ++ "-role" ∧
    role_binding_name u none = u ++ "-" ++ (u ++ "-role") ∧
    role_name u (some r) = r ∧
    role_binding_name u (some r) = u ++ "-" ++ r ∧
    cert_request_name u = u ++ "-cr" :=
  ⟨rfl, rfl, rfl, rfl, rfl⟩

/-- C7: the existence check returns true when the `kubectl get` succeeds, returns false
exactly when it fails with an error text containing `NotFound`, and raises the hard
error `UnexpectedQueryFailure` on every other failure. -/
theorem resource_exists_spec (res : CompletedProcess) :
    (res.returncode = 0 → resource_exists res = Except.ok true) ∧
    (resource_exists res = Except.ok false ↔
      res.returncode ≠ 0 ∧ "NotFound".data <:+: res.stderr.data) ∧
    (res.returncode ≠ 0 → ¬ ("NotFound".data <:+: res.stderr.data) →
      resource_exists res = Except.error RunError.unexpectedQueryFailure) := by
  unfold resource_exists
  refine ⟨?_, ?_, ?_⟩
  · intro h
    simp [h]
  · constructor
    · intro h
      by_cases h1 : res.returncode ≠ 0
      · by_cases h2 : "NotFound".data <:+: res.stderr.data
        · exact ⟨h1, h2⟩
        · simp [h1, h2] at h
      · simp [h1] at h
    · rintro ⟨h1, h2⟩
      simp [h1, h2]
  · intro h1 h2
    simp [h1, h2]

/-- C7 witness: a failed read whose error text mentions NotFound reports absence. -/
theorem resource_exists_witness :
    resource_exists ⟨1, "Error from server (NotFound): x"⟩ = Except.ok false :=
  (resource_exists_spec ⟨1, "Error from server (NotFound): x"⟩).2.1.mpr
    ⟨by decide, by decide⟩

/-- C6: a source credential file with more than one cluster entry makes construction of
the provisioner fail with `ConfigError` before any cluster mutation occurs: the run
performs no effect, and cluster state and destination file are untouched. -/
theorem multi_cluster_config (clusters : List SourceCluster) (u : String)
    (er : Option String) (st0 : ClusterState) (out0 : KubeconfigFile)
    (answers : Nat → String) (cert : Nat → Option String) (keyPem tmp caTmp : String)
    (h : clusters.length > 1) :
    (provision clusters u er st0 out0 answers cert keyPem tmp caTmp).result
        = Except.error RunError.configError ∧
    (provision clusters u er st0 out0 answers cert keyPem tmp caTmp).effects = [] ∧
    (provision clusters u er st0 out0 answers cert keyPem tmp caTmp).state = st0 ∧
    (provision clusters u er st0 out0 answers cert keyPem tmp caTmp).outConfig
        = out0 := by
  unfold provision kubeConfigInit
  simp [h]

/-- C6 witness at a concrete two-cluster source file. -/
theorem multi_cluster_config_witness :
    (provision [⟨"a", "sa", "ca"⟩, ⟨"b", "sb", "cb"⟩] "u" none ⟨[], [], []⟩
        emptyKubeconfig (fun _ => "") (fun _ => none) "KEY" "/t" "/ca").result
      = Except.error RunError.configError :=
  (multi_cluster_config [⟨"a", "sa", "ca"⟩, ⟨"b", "sb", "cb"⟩] "u" none ⟨[], [], []⟩
    emptyKubeconfig (fun _ => "") (fun _ => none) "KEY" "/t" "/ca" (by decide)).1

/-- Outcome of the certificate phase when a CSR of the computed name pre-exists and the
poll times out. -/
theorem certPhase_eq_timeout_replace (cfg : Cfg) (st : ClusterState)
    (out0 : KubeconfigFile) (cert : Nat → Option String) (keyPem tmp caTmp : String)
    (effs : List Effect) (err : RunError)
    (hcs : cert_request_name cfg.monitor_user ∈ st.csrs)
    (happ : approveLoop cert 0 = Except.error err) :
    certPhase cfg st out0 cert keyPem tmp caTmp effs =
      { result := Except.error err,
        state := ⟨st.roles, st.bindings, cert_request_name cfg.monitor_user ::
          st.csrs.erase (cert_request_name cfg.monitor_user)⟩,
        effects := effs ++ [Effect.deleteCsr (cert_request_name cfg.monitor_user),
          Effect.writeTempFile (tmp ++ "/monitor.key"),
          Effect.createCsr (cert_request_name cfg.monitor_user),
          Effect.approveCsr (cert_request_name cfg.monitor_user),
          Effect.removeTempDir tmp],
        tempFiles := [], outConfig := out0 } := by
  simp [certPhase, happ, hcs, List.append_assoc, String.data_append]

/-- Outcome of the certificate phase when no CSR of the computed name pre-exists and the
poll times out. -/
theorem certPhase_eq_timeout_fresh (cfg : Cfg) (st : ClusterState)
    (out0 : KubeconfigFile) (cert : Nat → Option String) (keyPem tmp caTmp : String)
    (effs : List Effect) (err : RunError)
    (hcs : cert_request_name cfg.monitor_user ∉ st.csrs)
    (happ : approveLoop cert 0 = Except.error err) :
    certPhase cfg st out0 cert keyPem tmp caTmp effs =
      { result := Except.error err,
        state := ⟨st.roles, st.bindings,
          cert_request_name cfg.monitor_user :: st.csrs⟩,
        effects := effs ++ [Effect.writeTempFile (tmp ++ "/monitor.key"),
          Effect.createCsr (cert_request_name cfg.monitor_user),
          Effect.approveCsr (cert_request_name cfg.monitor_user),
          Effect.removeTempDir tmp],
        tempFiles := [], outConfig := out0 } := by
  simp [certPhase, happ, hcs, List.append_assoc, String.data_append]

/-- Outcome of the certificate phase when a CSR of the computed name pre-exists and the
poll observes a certificate. -/
theorem certPhase_eq_ok_replace (cfg : Cfg) (st : ClusterState) (out0 : KubeconfigFile)
    (cert : Nat → Option String) (keyPem tmp caTmp : String) (effs : List Effect)
    (c : String) (hcs : cert_request_name cfg.monitor_user ∈ st.csrs)
    (happ : approveLoop cert 0 = Except.ok c) :
    certPhase cfg st out0 cert keyPem tmp caTmp effs =
      { result := Except.ok (),
        state := ⟨st.roles, st.bindings, cert_request_name cfg.monitor_user ::
          st.csrs.erase (cert_request_name cfg.monitor_user)⟩,
        effects := effs ++ [Effect.deleteCsr (cert_request_name cfg.monitor_user),
          Effect.writeTempFile (tmp ++ "/monitor.key"),
          Effect.createCsr (cert_request_name cfg.monitor_user),
          Effect.approveCsr (cert_request_name cfg.monitor_user),
          Effect.writeTempFile (tmp ++ "/monitor.crt"), Effect.writeTempFile caTmp,
          Effect.removeTempFile caTmp, Effect.wroteKubeconfig,
          Effect.removeTempDir tmp],
        tempFiles := [],
        outConfig := create_new_kubeconfig cfg (b64decode c) keyPem out0 } := by
  simp [certPhase, happ, hcs, List.append_assoc, String.data_append]

/-- Outcome of the certificate phase when no CSR of the computed name pre-exists and the
poll observes a certificate. -/
theorem certPhase_eq_ok_fresh (cfg : Cfg) (st : ClusterState) (out0 : KubeconfigFile)
    (cert : Nat → Option String) (keyPem tmp caTmp : String) (effs : List Effect)
    (c : String) (hcs : cert_request_name cfg.monitor_user ∉ st.csrs)
    (happ : approveLoop cert 0 = Except.ok c) :
    certPhase cfg st out0 cert keyPem tmp caTmp effs =
      { result := Except.ok (),
        state := ⟨st.roles, st.bindings,
          cert_request_name cfg.monitor_user :: st.csrs⟩,
        effects := effs ++ [Effect.writeTempFile (tmp ++ "/monitor.key"),
          Effect.createCsr (cert_request_name cfg.monitor_user),
          Effect.approveCsr (cert_request_name cfg.monitor_user),
          Effect.writeTempFile (tmp ++ "/monitor.crt"), Effect.writeTempFile caTmp,
          Effect.removeTempFile caTmp, Effect.wroteKubeconfig,
          Effect.removeTempDir tmp],
        tempFiles := [],
        outConfig := create_new_kubeconfig cfg (b64decode c) keyPem out0 } := by
  simp [certPhase, happ, hcs, List.append_assoc, String.data_append]

/-- The certificate phase only appends to the effect trace. -/
theorem certPhase_effects_prefix (cfg : Cfg) (st : ClusterState) (out0 : KubeconfigFile)
    (cert : Nat → Option String) (keyPem tmp caTmp : String) (effs : List Effect) :
    ∃ tail, (certPhase cfg st out0 cert keyPem tmp caTmp effs).effects
      = effs ++ tail := by
  cases happ : approveLoop cert 0 with
  | error err =>
    by_cases hcs : cert_request_name cfg.monitor_user ∈ st.csrs
    · rw [certPhase_eq_timeout_replace cfg st out0 cert keyPem tmp caTmp effs err hcs happ]
      exact ⟨_, rfl⟩
    · rw [certPhase_eq_timeout_fresh cfg st out0 cert keyPem tmp caTmp effs err hcs happ]
      exact ⟨_, rfl⟩
  | ok c =>
    by_cases hcs : cert_request_name cfg.monitor_user ∈ st.csrs
    · rw [certPhase_eq_ok_replace cfg st out0 cert keyPem tmp caTmp effs c hcs happ]
      exact ⟨_, rfl⟩
    · rw [certPhase_eq_ok_fresh cfg st out0 cert keyPem tmp caTmp effs c hcs happ]
      exact ⟨_, rfl⟩

/-- The certificate phase never emits a cluster-role creation. -/
theorem certPhase_mem_createRole (cfg : Cfg) (st : ClusterState) (out0 : KubeconfigFile)
    (cert : Nat → Option String) (keyPem tmp caTmp : String) (effs : List Effect)
    (n : String)
    (h : Effect.createClusterRole n
      ∈ (certPhase cfg st out0 cert keyPem tmp caTmp effs).effects) :
    Effect.createClusterRole n ∈ effs := by
  cases happ : approveLoop cert 0 with
  | error err =>
    by_cases hcs : cert_request_name cfg.monitor_user ∈ st.csrs
    · rw [certPhase_eq_timeout_replace cfg st out0 cert keyPem tmp caTmp effs err hcs
        happ] at h
      simpa using h
    · rw [certPhase_eq_timeout_fresh cfg st out0 cert keyPem tmp caTmp effs err hcs
        happ] at h
      simpa using h
  | ok c =>
    by_cases hcs : cert_request_name cfg.monitor_user ∈ st.csrs
    · rw [certPhase_eq_ok_replace cfg st out0 cert keyPem tmp caTmp effs c hcs happ] at h
      simpa using h
    · rw [certPhase_eq_ok_fresh cfg st out0 cert keyPem tmp caTmp effs c hcs happ] at h
      simpa using h

/-- The certificate phase never deletes a cluster role binding. -/
theorem certPhase_mem_deleteBinding (cfg : Cfg) (st : ClusterState)
    (out0 : KubeconfigFile) (cert : Nat → Option String) (keyPem tmp caTmp : String)
    (effs : List Effect) (n : String)
    (h : Effect.deleteClusterRoleBinding n
      ∈ (certPhase cfg st out0 cert keyPem tmp caTmp effs).effects) :
    Effect.deleteClusterRoleBinding n ∈ effs := by
  cases happ : approveLoop cert 0 with
  | error err =>
    by_cases hcs : cert_request_name cfg.monitor_user ∈ st.csrs
    · rw [certPhase_eq_timeout_replace cfg st out0 cert keyPem tmp caTmp effs err hcs
        happ] at h
      simpa using h
    · rw [certPhase_eq_timeout_fresh cfg st out0 cert keyPem tmp caTmp effs err hcs
        happ] at h
      simpa using h
  | ok c =>
    by_cases hcs : cert_request_name cfg.monitor_user ∈ st.csrs
    · rw [certPhase_eq_ok_replace cfg st out0 cert keyPem tmp caTmp effs c hcs happ] at h
      simpa using h
    · rw [certPhase_eq_ok_fresh cfg st out0 cert keyPem tmp caTmp effs c hcs happ] at h
      simpa using h

/-- A CSR deletion emitted by the certificate phase names the computed CSR name and
happens only when that CSR pre-existed. -/
theorem certPhase_mem_deleteCsr (cfg : Cfg) (st : ClusterState) (out0 : KubeconfigFile)
    (cert : Nat → Option String) (keyPem tmp caTmp : String) (effs : List Effect)
    (n : String)
    (h : Effect.deleteCsr n
      ∈ (certPhase cfg st out0 cert keyPem tmp caTmp effs).effects) :
    Effect.deleteCsr n ∈ effs ∨
      (n = cert_request_name cfg.monitor_user ∧
        cert_request_name cfg.monitor_user ∈ st.csrs) := by
  cases happ : approveLoop cert 0 with
  | error err =>
    by_cases hcs : cert_request_name cfg.monitor_user ∈ st.csrs
    · rw [certPhase_eq_timeout_replace cfg st out0 cert keyPem tmp caTmp effs err hcs
        happ] at h
      simp at h
      rcases h with h | h
      · exact Or.inl h
      · exact Or.inr ⟨h, hcs⟩
    · rw [certPhase_eq_timeout_fresh cfg st out0 cert keyPem tmp caTmp effs err hcs
        happ] at h
      simp at h
      exact Or.inl h
  | ok c =>
    by_cases hcs : cert_request_name cfg.monitor_user ∈ st.csrs
    · rw [certPhase_eq_ok_replace cfg st out0 cert keyPem tmp caTmp effs c hcs happ] at h
      simp at h
      rcases h with h | h
      · exact Or.inl h
      · exact Or.inr ⟨h, hcs⟩
    · rw [certPhase_eq_ok_fresh cfg st out0 cert keyPem tmp caTmp effs c hcs happ] at h
      simp at h
      exact Or.inl h

/-- When the computed CSR pre-exists, the certificate phase deletes it and then
recreates it, in that order. -/
theorem certPhase_delete_then_create (cfg : Cfg) (st : ClusterState)
    (out0 : KubeconfigFile) (cert : Nat → Option String) (keyPem tmp caTmp : String)
    (effs : List Effect) (hcs : cert_request_name cfg.monitor_user ∈ st.csrs) :
    [Effect.deleteCsr (cert_request_name cfg.monitor_user),
     Effect.createCsr (cert_request_name cfg.monitor_user)].Sublist
      (certPhase cfg st out0 cert keyPem tmp caTmp effs).effects := by
  cases happ : approveLoop cert 0 with
  | error err =>
    rw [certPhase_eq_timeout_replace cfg st out0 cert keyPem tmp caTmp effs err hcs happ]
    refine List.Sublist.trans ?_ (List.sublist_append_right effs _)
    exact (List.nil_sublist _).cons₂ _ |>.cons _ |>.cons₂ _
  | ok c =>
    rw [certPhase_eq_ok_replace cfg st out0 cert keyPem tmp caTmp effs c hcs happ]
    refine List.Sublist.trans ?_ (List.sublist_append_right effs _)
    exact (List.nil_sublist _).cons₂ _ |>.cons _ |>.cons₂ _

/-- The kubeconfig-assembly marker appears in the certificate-phase trace only when the
poll succeeded. -/
theorem certPhase_mem_wrote (cfg : Cfg) (st : ClusterState) (out0 : KubeconfigFile)
    (cert : Nat → Option String) (keyPem tmp caTmp : String) (effs : List Effect)
    (h : Effect.wroteKubeconfig
      ∈ (certPhase cfg st out0 cert keyPem tmp caTmp effs).effects) :
    Effect.wroteKubeconfig ∈ effs ∨ ∃ c, approveLoop cert 0 = Except.ok c := by
  cases happ : approveLoop cert 0 with
  | error err =>
    by_cases hcs : cert_request_name cfg.monitor_user ∈ st.csrs
    · rw [certPhase_eq_timeout_replace cfg st out0 cert keyPem tmp caTmp effs err hcs
        happ] at h
      simp at h
      exact Or.inl h
    · rw [certPhase_eq_timeout_fresh cfg st out0 cert keyPem tmp caTmp effs err hcs
        happ] at h
      simp at h
      exact Or.inl h
  | ok c => exact Or.inr ⟨c, rfl⟩


/-- The RBAC-creation phase in terms of the certificate phase. -/
theorem rbacPhase_eq (cfg : Cfg) (st : ClusterState) (out0 : KubeconfigFile)
    (cert : Nat → Option String) (keyPem tmp caTmp : String) (effs : List Effect) :
    rbacPhase cfg st out0 cert keyPem tmp caTmp effs =
      certPhase cfg
        ⟨(if cfg.existing_role.isNone then
            role_name cfg.monitor_user cfg.existing_role :: st.roles else st.roles),
          role_binding_name cfg.monitor_user cfg.existing_role :: st.bindings, st.csrs⟩
        out0 cert keyPem tmp caTmp
        ((if cfg.existing_role.isNone then
            effs ++ [Effect.createClusterRole
              (role_name cfg.monitor_user cfg.existing_role)]
          else effs)
          ++ [Effect.createClusterRoleBinding
            (role_binding_name cfg.monitor_user cfg.existing_role)
            (role_name cfg.monitor_user cfg.existing_role) cfg.monitor_user]) := by
  unfold rbacPhase
  by_cases hn : cfg.existing_role.isNone = true <;> simp [hn]

/-- The RBAC-creation phase only appends to the effect trace. -/
theorem rbacPhase_effects_prefix (cfg : Cfg) (st : ClusterState) (out0 : KubeconfigFile)
    (cert : Nat → Option String) (keyPem tmp caTmp : String) (effs : List Effect) :
    ∃ tail, (rbacPhase cfg st out0 cert keyPem tmp caTmp effs).effects
      = effs ++ tail := by
  rw [rbacPhase_eq]
  obtain ⟨t, ht⟩ := certPhase_effects_prefix cfg _ out0 cert keyPem tmp caTmp _
  rw [ht]
  by_cases hn : cfg.existing_role.isNone = true <;> simp [hn, List.append_assoc]

/-- With an explicit role configured, the RBAC phase never emits a role creation. -/
theorem rbacPhase_mem_createRole (cfg : Cfg) (st : ClusterState) (out0 : KubeconfigFile)
    (cert : Nat → Option String) (keyPem tmp caTmp : String) (effs : List Effect)
    (n : String) (hn : cfg.existing_role.isNone = false)
    (h : Effect.createClusterRole n
      ∈ (rbacPhase cfg st out0 cert keyPem tmp caTmp effs).effects) :
    Effect.createClusterRole n ∈ effs := by
  rw [rbacPhase_eq] at h
  have h2 := certPhase_mem_createRole cfg _ out0 cert keyPem tmp caTmp _ n h
  rw [hn] at h2
  simpa using h2

/-- The RBAC phase never deletes a cluster role binding. -/
theorem rbacPhase_mem_deleteBinding (cfg : Cfg) (st : ClusterState)
    (out0 : KubeconfigFile) (cert : Nat → Option String) (keyPem tmp caTmp : String)
    (effs : List Effect) (n : String)
    (h : Effect.deleteClusterRoleBinding n
      ∈ (rbacPhase cfg st out0 cert keyPem tmp caTmp effs).effects) :
    Effect.deleteClusterRoleBinding n ∈ effs := by
  rw [rbacPhase_eq] at h
  have h2 := certPhase_mem_deleteBinding cfg _ out0 cert keyPem tmp caTmp _ n h
  by_cases hn : cfg.existing_role.isNone = true <;> simp [hn] at h2 <;> exact h2

/-- A CSR deletion emitted by the RBAC phase names the computed CSR name and happens
only when that CSR pre-existed. -/
theorem rbacPhase_mem_deleteCsr (cfg : Cfg) (st : ClusterState) (out0 : KubeconfigFile)
    (cert : Nat → Option String) (keyPem tmp caTmp : String) (effs : List Effect)
    (n : String)
    (h : Effect.deleteCsr n
      ∈ (rbacPhase cfg st out0 cert keyPem tmp caTmp effs).effects) :
    Effect.deleteCsr n ∈ effs ∨
      (n = cert_request_name cfg.monitor_user ∧
        cert_request_name cfg.monitor_user ∈ st.csrs) := by
  rw [rbacPhase_eq] at h
  have h2 := certPhase_mem_deleteCsr cfg _ out0 cert keyPem tmp caTmp _ n h
  rcases h2 with h2 | h2
  · left
    by_cases hn : cfg.existing_role.isNone = true <;> simp [hn] at h2 <;> exact h2
  · exact Or.inr h2

/-- The kubeconfig-assembly marker appears in the RBAC-phase trace only when the poll
succeeded. -/
theorem rbacPhase_mem_wrote (cfg : Cfg) (st : ClusterState) (out0 : KubeconfigFile)
    (cert : Nat → Option String) (keyPem tmp caTmp : String) (effs : List Effect)
    (h : Effect.wroteKubeconfig
      ∈ (rbacPhase cfg st out0 cert keyPem tmp caTmp effs).effects) :
    Effect.wroteKubeconfig ∈ effs ∨ ∃ c, approveLoop cert 0 = Except.ok c := by
  rw [rbacPhase_eq] at h
  have h2 := certPhase_mem_wrote cfg _ out0 cert keyPem tmp caTmp _ h
  rcases h2 with h2 | h2
  · left
    by_cases hn : cfg.existing_role.isNone = true <;> simp [hn] at h2 <;> exact h2
  · exact Or.inr h2

/-- When the computed CSR pre-exists, the RBAC phase deletes it and then recreates
it. -/
theorem rbacPhase_csr_replaced (cfg : Cfg) (st : ClusterState) (out0 : KubeconfigFile)
    (cert : Nat → Option String) (keyPem tmp caTmp : String) (effs : List Effect)
    (hcs : cert_request_name cfg.monitor_user ∈ st.csrs) :
    [Effect.deleteCsr (cert_request_name cfg.monitor_user),
     Effect.createCsr (cert_request_name cfg.monitor_user)].Sublist
      (rbacPhase cfg st out0 cert keyPem tmp caTmp effs).effects := by
  rw [rbacPhase_eq]
  exact certPhase_delete_then_create cfg _ out0 cert keyPem tmp caTmp _ hcs

/-- When the poll succeeds, the certificate phase assembles the output kubeconfig from
the decoded certificate, the generated key and the prior destination state. -/
theorem certPhase_outConfig_ok (cfg : Cfg) (st : ClusterState) (out0 : KubeconfigFile)
    (cert : Nat → Option String) (keyPem tmp caTmp : String) (effs : List Effect)
    (c : String) (happ : approveLoop cert 0 = Except.ok c) :
    (certPhase cfg st out0 cert keyPem tmp caTmp effs).outConfig
      = create_new_kubeconfig cfg (b64decode c) keyPem out0 := by
  by_cases hcs : cert_request_name cfg.monitor_user ∈ st.csrs
  · rw [certPhase_eq_ok_replace cfg st out0 cert keyPem tmp caTmp effs c hcs happ]
  · rw [certPhase_eq_ok_fresh cfg st out0 cert keyPem tmp caTmp effs c hcs happ]

/-- When the poll succeeds, the RBAC phase hands the destination kubeconfig to the
certificate phase unchanged. -/
theorem rbacPhase_outConfig_ok (cfg : Cfg) (st : ClusterState) (out0 : KubeconfigFile)
    (cert : Nat → Option String) (keyPem tmp caTmp : String) (effs : List Effect)
    (c : String) (happ : approveLoop cert 0 = Except.ok c) :
    (rbacPhase cfg st out0 cert keyPem tmp caTmp effs).outConfig
      = create_new_kubeconfig cfg (b64decode c) keyPem out0 := by
  rw [rbacPhase_eq]
  exact certPhase_outConfig_ok cfg _ out0 cert keyPem tmp caTmp _ c happ

/-- The certificate phase leaves no temporary file behind. -/
theorem certPhase_tempFiles (cfg : Cfg) (st : ClusterState) (out0 : KubeconfigFile)
    (cert : Nat → Option String) (keyPem tmp caTmp : String) (effs : List Effect) :
    (certPhase cfg st out0 cert keyPem tmp caTmp effs).tempFiles = [] := by
  cases happ : approveLoop cert 0 with
  | error err =>
    by_cases hcs : cert_request_name cfg.monitor_user ∈ st.csrs
    · rw [certPhase_eq_timeout_replace cfg st out0 cert keyPem tmp caTmp effs err hcs
        happ]
    · rw [certPhase_eq_timeout_fresh cfg st out0 cert keyPem tmp caTmp effs err hcs happ]
  | ok c =>
    by_cases hcs : cert_request_name cfg.monitor_user ∈ st.csrs
    · rw [certPhase_eq_ok_replace cfg st out0 cert keyPem tmp caTmp effs c hcs happ]
    · rw [certPhase_eq_ok_fresh cfg st out0 cert keyPem tmp caTmp effs c hcs happ]

/-- The RBAC phase leaves no temporary file behind. -/
theorem rbacPhase_tempFiles (cfg : Cfg) (st : ClusterState) (out0 : KubeconfigFile)
    (cert : Nat → Option String) (keyPem tmp caTmp : String) (effs : List Effect) :
    (rbacPhase cfg st out0 cert keyPem tmp caTmp effs).tempFiles = [] := by
  rw [rbacPhase_eq]
  exact certPhase_tempFiles cfg _ out0 cert keyPem tmp caTmp _


/-- The role phase only appends to the effect trace. -/
theorem rolePhase_effects_prefix (cfg : Cfg) (st : ClusterState) (out0 : KubeconfigFile)
    (cert : Nat → Option String) (keyPem tmp caTmp : String) (effs : List Effect)
    (ans : String) :
    ∃ tail, (rolePhase cfg st out0 cert keyPem tmp caTmp effs ans).effects
      = effs ++ tail := by
  simp only [rolePhase]
  by_cases h1 : role_name cfg.monitor_user cfg.existing_role ∈ st.roles ∧
      ¬ pyTruthy cfg.existing_role = true
  · rw [if_pos h1]
    by_cases hy : isYes ans = true
    · rw [if_pos hy]
      obtain ⟨t, ht⟩ := rbacPhase_effects_prefix cfg
        ⟨st.roles.erase (role_name cfg.monitor_user cfg.existing_role), st.bindings,
          st.csrs⟩ out0 cert keyPem tmp caTmp
        (effs ++ [Effect.promptRoleOverwrite ans, Effect.deleteClusterRole
          (role_name cfg.monitor_user cfg.existing_role)])
      rw [ht]
      exact ⟨[Effect.promptRoleOverwrite ans, Effect.deleteClusterRole
        (role_name cfg.monitor_user cfg.existing_role)] ++ t,
        by simp [List.append_assoc]⟩
    · rw [if_neg hy]
      exact ⟨_, rfl⟩
  · rw [if_neg h1]
    by_cases h2 : pyTruthy cfg.existing_role = true ∧
        role_name cfg.monitor_user cfg.existing_role ∉ st.roles
    · rw [if_pos h2]
      exact ⟨[], by simp⟩
    · rw [if_neg h2]
      exact rbacPhase_effects_prefix cfg st out0 cert keyPem tmp caTmp effs

/-- With an explicit role configured, the role phase never emits a role creation. -/
theorem rolePhase_mem_createRole (cfg : Cfg) (st : ClusterState) (out0 : KubeconfigFile)
    (cert : Nat → Option String) (keyPem tmp caTmp : String) (effs : List Effect)
    (ans : String) (n : String) (hn : cfg.existing_role.isNone = false)
    (h : Effect.createClusterRole n
      ∈ (rolePhase cfg st out0 cert keyPem tmp caTmp effs ans).effects) :
    Effect.createClusterRole n ∈ effs := by
  simp only [rolePhase] at h
  by_cases h1 : role_name cfg.monitor_user cfg.existing_role ∈ st.roles ∧
      ¬ pyTruthy cfg.existing_role = true
  · rw [if_pos h1] at h
    by_cases hy : isYes ans = true
    · rw [if_pos hy] at h
      have h2 := rbacPhase_mem_createRole cfg _ out0 cert keyPem tmp caTmp _ n hn h
      simpa using h2
    · rw [if_neg hy] at h
      simpa using h
  · rw [if_neg h1] at h
    by_cases h2 : pyTruthy cfg.existing_role = true ∧
        role_name cfg.monitor_user cfg.existing_role ∉ st.roles
    · rw [if_pos h2] at h
      exact h
    · rw [if_neg h2] at h
      exact rbacPhase_mem_createRole cfg _ out0 cert keyPem tmp caTmp _ n hn h

/-- The role phase never deletes a cluster role binding. -/
theorem rolePhase_mem_deleteBinding (cfg : Cfg) (st : ClusterState)
    (out0 : KubeconfigFile) (cert : Nat → Option String) (keyPem tmp caTmp : String)
    (effs : List Effect) (ans : String) (n : String)
    (h : Effect.deleteClusterRoleBinding n
      ∈ (rolePhase cfg st out0 cert keyPem tmp caTmp effs ans).effects) :
    Effect.deleteClusterRoleBinding n ∈ effs := by
  simp only [rolePhase] at h
  by_cases h1 : role_name cfg.monitor_user cfg.existing_role ∈ st.roles ∧
      ¬ pyTruthy cfg.existing_role = true
  · rw [if_pos h1] at h
    by_cases hy : isYes ans = true
    · rw [if_pos hy] at h
      have h2 := rbacPhase_mem_deleteBinding cfg _ out0 cert keyPem tmp caTmp _ n h
      simpa using h2
    · rw [if_neg hy] at h
      simpa using h
  · rw [if_neg h1] at h
    by_cases h2 : pyTruthy cfg.existing_role = true ∧
        role_name cfg.monitor_user cfg.existing_role ∉ st.roles
    · rw [if_pos h2] at h
      exact h
    · rw [if_neg h2] at h
      exact rbacPhase_mem_deleteBinding cfg _ out0 cert keyPem tmp caTmp _ n h

/-- A CSR deletion emitted by the role phase names the computed CSR name and happens
only when that CSR pre-existed. -/
theorem rolePhase_mem_deleteCsr (cfg : Cfg) (st : ClusterState) (out0 : KubeconfigFile)
    (cert : Nat → Option String) (keyPem tmp caTmp : String) (effs : List Effect)
    (ans : String) (n : String)
    (h : Effect.deleteCsr n
      ∈ (rolePhase cfg st out0 cert keyPem tmp caTmp effs ans).effects) :
    Effect.deleteCsr n ∈ effs ∨
      (n = cert_request_name cfg.monitor_user ∧
        cert_request_name cfg.monitor_user ∈ st.csrs) := by
  simp only [rolePhase] at h
  by_cases h1 : role_name cfg.monitor_user cfg.existing_role ∈ st.roles ∧
      ¬ pyTruthy cfg.existing_role = true
  · rw [if_pos h1] at h
    by_cases hy : isYes ans = true
    · rw [if_pos hy] at h
      have h2 := rbacPhase_mem_deleteCsr cfg _ out0 cert keyPem tmp caTmp _ n h
      rcases h2 with h2 | h2
      · left
        simpa using h2
      · exact Or.inr h2
    · rw [if_neg hy] at h
      left
      simpa using h
  · rw [if_neg h1] at h
    by_cases h2 : pyTruthy cfg.existing_role = true ∧
        role_name cfg.monitor_user cfg.existing_role ∉ st.roles
    · rw [if_pos h2] at h
      exact Or.inl h
    · rw [if_neg h2] at h
      exact rbacPhase_mem_deleteCsr cfg _ out0 cert keyPem tmp caTmp _ n h

/-- The kubeconfig-assembly marker appears in the role-phase trace only when the poll
succeeded. -/
theorem rolePhase_mem_wrote (cfg : Cfg) (st : ClusterState) (out0 : KubeconfigFile)
    (cert : Nat → Option String) (keyPem tmp caTmp : String) (effs : List Effect)
    (ans : String)
    (h : Effect.wroteKubeconfig
      ∈ (rolePhase cfg st out0 cert keyPem tmp caTmp effs ans).effects) :
    Effect.wroteKubeconfig ∈ effs ∨ ∃ c, approveLoop cert 0 = Except.ok c := by
  simp only [rolePhase] at h
  by_cases h1 : role_name cfg.monitor_user cfg.existing_role ∈ st.roles ∧
      ¬ pyTruthy cfg.existing_role = true
  · rw [if_pos h1] at h
    by_cases hy : isYes ans = true
    · rw [if_pos hy] at h
      have h2 := rbacPhase_mem_wrote cfg _ out0 cert keyPem tmp caTmp _ h
      rcases h2 with h2 | h2
      · left
        simpa using h2
      · exact Or.inr h2
    · rw [if_neg hy] at h
      left
      simpa using h
  · rw [if_neg h1] at h
    by_cases h2 : pyTruthy cfg.existing_role = true ∧
        role_name cfg.monitor_user cfg.existing_role ∉ st.roles
    · rw [if_pos h2] at h
      exact Or.inl h
    · rw [if_neg h2] at h
      exact rbacPhase_mem_wrote cfg _ out0 cert keyPem tmp caTmp _ h

/-- When the computed CSR pre-existed and the role phase reached CSR creation, the CSR
was deleted first and then recreated. -/
theorem rolePhase_csr_replaced (cfg : Cfg) (st : ClusterState) (out0 : KubeconfigFile)
    (cert : Nat → Option String) (keyPem tmp caTmp : String) (effs : List Effect)
    (ans : String) (hcs : cert_request_name cfg.monitor_user ∈ st.csrs)
    (hce : Effect.createCsr (cert_request_name cfg.monitor_user) ∉ effs)
    (hcr : Effect.createCsr (cert_request_name cfg.monitor_user)
      ∈ (rolePhase cfg st out0 cert keyPem tmp caTmp effs ans).effects) :
    [Effect.deleteCsr (cert_request_name cfg.monitor_user),
     Effect.createCsr (cert_request_name cfg.monitor_user)].Sublist
      (rolePhase cfg st out0 cert keyPem tmp caTmp effs ans).effects := by
  simp only [rolePhase] at hcr ⊢
  by_cases h1 : role_name cfg.monitor_user cfg.existing_role ∈ st.roles ∧
      ¬ pyTruthy cfg.existing_role = true
  · rw [if_pos h1] at hcr ⊢
    by_cases hy : isYes ans = true
    · rw [if_pos hy] at hcr ⊢
      exact rbacPhase_csr_replaced cfg _ out0 cert keyPem tmp caTmp _ hcs
    · rw [if_neg hy] at hcr
      simp at hcr
      exact absurd hcr hce
  · rw [if_neg h1] at hcr ⊢
    by_cases h2 : pyTruthy cfg.existing_role = true ∧
        role_name cfg.monitor_user cfg.existing_role ∉ st.roles
    · rw [if_pos h2] at hcr
      exact absurd hcr hce
    · rw [if_neg h2] at hcr ⊢
      exact rbacPhase_csr_replaced cfg _ out0 cert keyPem tmp caTmp _ hcs

/-- When the role phase assembled the output kubeconfig, its content is determined by
the decoded polled certificate, the generated key and the prior destination state. -/
theorem rolePhase_outConfig (cfg : Cfg) (st : ClusterState) (out0 : KubeconfigFile)
    (cert : Nat → Option String) (keyPem tmp caTmp : String) (effs : List Effect)
    (ans : String) (c : String) (happ : approveLoop cert 0 = Except.ok c)
    (hwe : Effect.wroteKubeconfig ∉ effs)
    (hw : Effect.wroteKubeconfig
      ∈ (rolePhase cfg st out0 cert keyPem tmp caTmp effs ans).effects) :
    (rolePhase cfg st out0 cert keyPem tmp caTmp effs ans).outConfig
      = create_new_kubeconfig cfg (b64decode c) keyPem out0 := by
  simp only [rolePhase] at hw ⊢
  by_cases h1 : role_name cfg.monitor_user cfg.existing_role ∈ st.roles ∧
      ¬ pyTruthy cfg.existing_role = true
  · rw [if_pos h1] at hw ⊢
    by_cases hy : isYes ans = true
    · rw [if_pos hy] at hw ⊢
      exact rbacPhase_outConfig_ok cfg _ out0 cert keyPem tmp caTmp _ c happ
    · rw [if_neg hy] at hw
      simp at hw
      exact absurd hw hwe
  · rw [if_neg h1] at hw ⊢
    by_cases h2 : pyTruthy cfg.existing_role = true ∧
        role_name cfg.monitor_user cfg.existing_role ∉ st.roles
    · rw [if_pos h2] at hw
      exact absurd hw hwe
    · rw [if_neg h2] at hw ⊢
      exact rbacPhase_outConfig_ok cfg _ out0 cert keyPem tmp caTmp _ c happ

/-- The role phase leaves no temporary file behind. -/
theorem rolePhase_tempFiles (cfg : Cfg) (st : ClusterState) (out0 : KubeconfigFile)
    (cert : Nat → Option String) (keyPem tmp caTmp : String) (effs : List Effect)
    (ans : String) :
    (rolePhase cfg st out0 cert keyPem tmp caTmp effs ans).tempFiles = [] := by
  simp only [rolePhase]
  by_cases h1 : role_name cfg.monitor_user cfg.existing_role ∈ st.roles ∧
      ¬ pyTruthy cfg.existing_role = true
  · rw [if_pos h1]
    by_cases hy : isYes ans = true
    · rw [if_pos hy]
      exact rbacPhase_tempFiles cfg _ out0 cert keyPem tmp caTmp _
    · rw [if_neg hy]
  · rw [if_neg h1]
    by_cases h2 : pyTruthy cfg.existing_role = true ∧
        role_name cfg.monitor_user cfg.existing_role ∉ st.roles
    · rw [if_pos h2]
    · rw [if_neg h2]
      exact rbacPhase_tempFiles cfg _ out0 cert keyPem tmp caTmp _

/-- Declining the binding-overwrite prompt: outcome of the whole run. -/
theorem run_decline_binding (cfg : Cfg) (st0 : ClusterState) (out0 : KubeconfigFile)
    (answers : Nat → String) (cert : Nat → Option String) (keyPem tmp caTmp : String)
    (hbm : role_binding_name cfg.monitor_user cfg.existing_role ∈ st0.bindings)
    (hy : ¬ isYes (answers 0) = true) :
    generate_monitor_config cfg st0 out0 answers cert keyPem tmp caTmp =
      { result := Except.ok (), state := st0,
        effects := [Effect.promptBindingOverwrite (answers 0)], tempFiles := [],
        outConfig := out0 } := by
  simp only [generate_monitor_config]
  rw [if_pos hbm, if_neg hy]

/-- Declining the role-overwrite prompt when no binding pre-existed: outcome of the
whole run. -/
theorem run_decline_role (cfg : Cfg) (st0 : ClusterState) (out0 : KubeconfigFile)
    (answers : Nat → String) (cert : Nat → Option String) (keyPem tmp caTmp : String)
    (hbm : role_binding_name cfg.monitor_user cfg.existing_role ∉ st0.bindings)
    (hrole : role_name cfg.monitor_user cfg.existing_role ∈ st0.roles)
    (htr : pyTruthy cfg.existing_role = false)
    (hy : ¬ isYes (answers 0) = true) :
    generate_monitor_config cfg st0 out0 answers cert keyPem tmp caTmp =
      { result := Except.ok (), state := st0,
        effects := [Effect.promptRoleOverwrite (answers 0)], tempFiles := [],
        outConfig := out0 } := by
  simp only [generate_monitor_config]
  rw [if_neg hbm]
  simp only [rolePhase]
  rw [if_pos ⟨hrole, by simp [htr]⟩, if_neg hy]
  simp

/-- Declining the role-overwrite prompt after the binding-overwrite prompt was answered
affirmatively: outcome of the whole run; the binding has already been deleted. -/
theorem run_decline_role_after_binding (cfg : Cfg) (st0 : ClusterState)
    (out0 : KubeconfigFile) (answers : Nat → String) (cert : Nat → Option String)
    (keyPem tmp caTmp : String)
    (hbm : role_binding_name cfg.monitor_user cfg.existing_role ∈ st0.bindings)
    (hy0 : isYes (answers 0) = true)
    (hrole : role_name cfg.monitor_user cfg.existing_role ∈ st0.roles)
    (htr : pyTruthy cfg.existing_role = false)
    (hy1 : ¬ isYes (answers 1) = true) :
    generate_monitor_config cfg st0 out0 answers cert keyPem tmp caTmp =
      { result := Except.ok (),
        state := ⟨st0.roles, st0.bindings.erase
          (role_binding_name cfg.monitor_user cfg.existing_role), st0.csrs⟩,
        effects := [Effect.promptBindingOverwrite (answers 0),
          Effect.deleteClusterRoleBinding
            (role_binding_name cfg.monitor_user cfg.existing_role),
          Effect.promptRoleOverwrite (answers 1)], tempFiles := [],
        outConfig := out0 } := by
  simp only [generate_monitor_config]
  rw [if_pos hbm, if_pos hy0]
  simp only [rolePhase]
  rw [if_pos ⟨hrole, by simp [htr]⟩, if_neg hy1]
  simp

/-- Answering the binding-overwrite prompt affirmatively deletes the pre-existing
binding. -/
theorem run_yes_binding_deleted (cfg : Cfg) (st0 : ClusterState) (out0 : KubeconfigFile)
    (answers : Nat → String) (cert : Nat → Option String) (keyPem tmp caTmp : String)
    (hbm : role_binding_name cfg.monitor_user cfg.existing_role ∈ st0.bindings)
    (hy0 : isYes (answers 0) = true) :
    Effect.deleteClusterRoleBinding
        (role_binding_name cfg.monitor_user cfg.existing_role)
      ∈ (generate_monitor_config cfg st0 out0 answers cert keyPem tmp caTmp).effects := by
  simp only [generate_monitor_config]
  rw [if_pos hbm, if_pos hy0]
  obtain ⟨t, ht⟩ := rolePhase_effects_prefix cfg _ out0 cert keyPem tmp caTmp
    [Effect.promptBindingOverwrite (answers 0), Effect.deleteClusterRoleBinding
      (role_binding_name cfg.monitor_user cfg.existing_role)] (answers 1)
  rw [ht]
  simp

/-- Answering the role-overwrite prompt affirmatively deletes the pre-existing role. -/
theorem run_yes_role_deleted (cfg : Cfg) (st0 : ClusterState) (out0 : KubeconfigFile)
    (answers : Nat → String) (cert : Nat → Option String) (keyPem tmp caTmp : String)
    (hbm : role_binding_name cfg.monitor_user cfg.existing_role ∉ st0.bindings)
    (hrole : role_name cfg.monitor_user cfg.existing_role ∈ st0.roles)
    (htr : pyTruthy cfg.existing_role = false)
    (hy0 : isYes (answers 0) = true) :
    Effect.deleteClusterRole (role_name cfg.monitor_user cfg.existing_role)
      ∈ (generate_monitor_config cfg st0 out0 answers cert keyPem tmp caTmp).effects := by
  simp only [generate_monitor_config]
  rw [if_neg hbm]
  simp only [rolePhase]
  rw [if_pos ⟨hrole, by simp [htr]⟩, if_pos hy0]
  obtain ⟨t, ht⟩ := rbacPhase_effects_prefix cfg
    ⟨st0.roles.erase (role_name cfg.monitor_user cfg.existing_role), st0.bindings,
      st0.csrs⟩ out0 cert keyPem tmp caTmp
    ([] ++ [Effect.promptRoleOverwrite (answers 0), Effect.deleteClusterRole
      (role_name cfg.monitor_user cfg.existing_role)])
  rw [ht]
  simp

/-- Kubeconfig assembly starting from an absent or empty destination file. -/
theorem create_new_kubeconfig_empty (cfg : Cfg) (signedCert : List Nat)
    (keyPem : String) :
    create_new_kubeconfig cfg signedCert keyPem emptyKubeconfig =
      ⟨[⟨cfg.cluster_name, cfg.cluster_server, b64decode cfg.k8s_ca⟩],
       [⟨cfg.monitor_user, signedCert, keyPem⟩],
       [⟨cfg.cluster_name ++ "-" ++ cfg.monitor_user, cfg.cluster_name,
         cfg.monitor_user⟩],
       some (cfg.cluster_name ++ "-" ++ cfg.monitor_user)⟩ := by
  simp [create_new_kubeconfig, setCluster, setCredentials, setContext, useContext,
    emptyKubeconfig]

/-- C3 (amended): for every run with a non-empty explicit role name naming no existing
cluster role, in which the run is not aborted earlier by a declined binding-overwrite
prompt, the operation fails with `RoleNotFound` and creates no RBAC object; and in
every run with an explicit role name supplied (even the empty string) no cluster role
is ever created.  The original claim fails for the explicit role name `""`, which
Python truthiness treats as "no explicit role" in the existence guard: see the
counterexample. -/
theorem explicit_role_not_found (u r : String) (clusters : List SourceCluster)
    (st0 : ClusterState) (out0 : KubeconfigFile) (answers : Nat → String)
    (cert : Nat → Option String) (keyPem tmp caTmp : String) :
    (r ≠ "" → role_name u (some r) ∉ st0.roles →
      (role_binding_name u (some r) ∉ st0.bindings ∨ isYes (answers 0) = true) →
      (generate_monitor_config ⟨u, some r, clusters, 0⟩ st0 out0 answers cert keyPem tmp
          caTmp).result = Except.error RunError.roleNotFound ∧
      ∀ e ∈ (generate_monitor_config ⟨u, some r, clusters, 0⟩ st0 out0 answers cert
          keyPem tmp caTmp).effects, e.isCreate = false) ∧
    (∀ n, Effect.createClusterRole n
      ∉ (generate_monitor_config ⟨u, some r, clusters, 0⟩ st0 out0 answers cert keyPem
          tmp caTmp).effects) := by
  constructor
  · intro hr hrole hb
    have hpy : pyTruthy (some r) = true := by simp [pyTruthy, hr]
    have hc1 : ¬ (role_name u (some r) ∈ st0.roles ∧ ¬ pyTruthy (some r) = true) :=
      fun hcon => hcon.2 hpy
    simp only [generate_monitor_config]
    by_cases hbm : role_binding_name u (some r) ∈ st0.bindings
    · have hy : isYes (answers 0) = true := by
        rcases hb with hb | hb
        · exact absurd hbm hb
        · exact hb
      rw [if_pos hbm, if_pos hy]
      simp only [rolePhase]
      rw [if_neg hc1, if_pos ⟨hpy, hrole⟩]
      refine ⟨rfl, ?_⟩
      intro e he
      simp at he
      rcases he with rfl | rfl <;> rfl
    · rw [if_neg hbm]
      simp only [rolePhase]
      rw [if_neg hc1, if_pos ⟨hpy, hrole⟩]
      exact ⟨rfl, by intro e he; simp at he⟩
  · intro n h
    simp only [generate_monitor_config] at h
    by_cases hbm : role_binding_name u (some r) ∈ st0.bindings
    · rw [if_pos hbm] at h
      by_cases hy : isYes (answers 0) = true
      · rw [if_pos hy] at h
        have h2 := rolePhase_mem_createRole ⟨u, some r, clusters, 0⟩ _ _ _ _ _ _ _ _ n rfl h
        simp at h2
      · rw [if_neg hy] at h
        simp at h
    · rw [if_neg hbm] at h
      have h2 := rolePhase_mem_createRole ⟨u, some r, clusters, 0⟩ _ _ _ _ _ _ _ _ n rfl h
      simp at h2

/-- C3 counterexample: the explicit role name `""` (a possible `--role ""` invocation)
with no cluster role named `""` does not fail with `RoleNotFound` and still creates an
RBAC object (the binding), because the empty string is falsy in the
`elif self.existing_role and not role_exists` guard. -/
theorem explicit_role_counterexample :
    ((generate_monitor_config ⟨"u", some "", [⟨"c", "s", "Q"⟩], 0⟩ ⟨[], [], []⟩
        emptyKubeconfig (fun _ => "n") (fun _ => some "QQ==") "KEY" "/t" "/ca").result
      ≠ Except.error RunError.roleNotFound) ∧
    Effect.createClusterRoleBinding "u-" "" "u"
      ∈ (generate_monitor_config ⟨"u", some "", [⟨"c", "s", "Q"⟩], 0⟩ ⟨[], [], []⟩
          emptyKubeconfig (fun _ => "n") (fun _ => some "QQ==") "KEY" "/t"
          "/ca").effects := by
  have happ : approveLoop (fun _ => some "QQ==") 0 = Except.ok "QQ==" := by
    rw [approveLoop_eq]
  have hrun : generate_monitor_config ⟨"u", some "", [⟨"c", "s", "Q"⟩], 0⟩ ⟨[], [], []⟩
      emptyKubeconfig (fun _ => "n") (fun _ => some "QQ==") "KEY" "/t" "/ca"
      = certPhase ⟨"u", some "", [⟨"c", "s", "Q"⟩], 0⟩ ⟨[], ["u-"], []⟩ emptyKubeconfig
        (fun _ => some "QQ==") "KEY" "/t" "/ca"
        [Effect.createClusterRoleBinding "u-" "" "u"] := rfl
  rw [hrun, certPhase_eq_ok_fresh _ _ _ _ _ _ _ _ "QQ==" (by simp) happ]
  exact ⟨by decide, by decide⟩

/-- C3 witness: a non-empty explicit role that does not exist fails with
`RoleNotFound`. -/
theorem explicit_role_not_found_witness :
    (generate_monitor_config ⟨"u", some "rr", [⟨"c", "s", "Q"⟩], 0⟩ ⟨[], [], []⟩
        emptyKubeconfig (fun _ => "") (fun _ => none) "KEY" "/t" "/ca").result
      = Except.error RunError.roleNotFound :=
  ((explicit_role_not_found "u" "rr" [⟨"c", "s", "Q"⟩] ⟨[], [], []⟩ emptyKubeconfig
    (fun _ => "") (fun _ => none) "KEY" "/t" "/ca").1 (by decide) (by decide)
    (Or.inl (by decide))).1

/-- C4 (amended): declining an overwrite prompt terminates the run without attempting
certificate issuance, with no CSR operation and with the destination kubeconfig
untouched.  Declining the binding-overwrite prompt leaves all cluster state untouched,
the prompt being the only effect; declining the role-overwrite prompt leaves roles and
CSRs untouched, but when the binding-overwrite prompt was answered affirmatively before
it, that binding has already been deleted, so the original "leaving all cluster-side
state untouched" fails: see the counterexample. -/
theorem decline_aborts (cfg : Cfg) (st0 : ClusterState) (out0 : KubeconfigFile)
    (answers : Nat → String) (cert : Nat → Option String) (keyPem tmp caTmp : String) :
    (role_binding_name cfg.monitor_user cfg.existing_role ∈ st0.bindings →
      isYes (answers 0) = false →
      generate_monitor_config cfg st0 out0 answers cert keyPem tmp caTmp =
        { result := Except.ok (), state := st0,
          effects := [Effect.promptBindingOverwrite (answers 0)], tempFiles := [],
          outConfig := out0 }) ∧
    (role_binding_name cfg.monitor_user cfg.existing_role ∉ st0.bindings →
      role_name cfg.monitor_user cfg.existing_role ∈ st0.roles →
      pyTruthy cfg.existing_role = false → isYes (answers 0) = false →
      generate_monitor_config cfg st0 out0 answers cert keyPem tmp caTmp =
        { result := Except.ok (), state := st0,
          effects := [Effect.promptRoleOverwrite (answers 0)], tempFiles := [],
          outConfig := out0 }) ∧
    (role_binding_name cfg.monitor_user cfg.existing_role ∈ st0.bindings →
      isYes (answers 0) = true →
      role_name cfg.monitor_user cfg.existing_role ∈ st0.roles →
      pyTruthy cfg.existing_role = false → isYes (answers 1) = false →
      generate_monitor_config cfg st0 out0 answers cert keyPem tmp caTmp =
        { result := Except.ok (),
          state := ⟨st0.roles, st0.bindings.erase
            (role_binding_name cfg.monitor_user cfg.existing_role), st0.csrs⟩,
          effects := [Effect.promptBindingOverwrite (answers 0),
            Effect.deleteClusterRoleBinding
              (role_binding_name cfg.monitor_user cfg.existing_role),
            Effect.promptRoleOverwrite (answers 1)], tempFiles := [],
          outConfig := out0 }) := by
  refine ⟨?_, ?_, ?_⟩
  · intro hbm hy
    exact run_decline_binding cfg st0 out0 answers cert keyPem tmp caTmp hbm
      (by simp [hy])
  · intro hbm hrole htr hy
    exact run_decline_role cfg st0 out0 answers cert keyPem tmp caTmp hbm hrole htr
      (by simp [hy])
  · intro hbm hy0 hrole htr hy1
    exact run_decline_role_after_binding cfg st0 out0 answers cert keyPem tmp caTmp hbm
      hy0 hrole htr (by simp [hy1])

/-- C4 counterexample: with binding and role both pre-existing, answering the binding
prompt `y` and then declining the role prompt terminates the run, but the pre-existing
binding has already been deleted, so cluster state is not left untouched. -/
theorem decline_counterexample :
    ((generate_monitor_config ⟨"u", none, [⟨"c", "s", "Q"⟩], 0⟩
        ⟨["u-role"], ["u-u-role"], []⟩ emptyKubeconfig
        (fun n => if n = 0 then "y" else "n") (fun _ => none) "KEY" "/t"
        "/ca").effects.contains (Effect.promptRoleOverwrite "n") = true) ∧
    isYes "n" = false ∧
    (generate_monitor_config ⟨"u", none, [⟨"c", "s", "Q"⟩], 0⟩
        ⟨["u-role"], ["u-u-role"], []⟩ emptyKubeconfig
        (fun n => if n = 0 then "y" else "n") (fun _ => none) "KEY" "/t"
        "/ca").state.bindings = [] := by
  decide

/-- C4 witness: declining the binding prompt with the answer `no` terminates the run
with the prompt as the only effect and everything untouched. -/
theorem decline_aborts_witness :
    generate_monitor_config ⟨"u", none, [⟨"c", "s", "Q"⟩], 0⟩ ⟨[], ["u-u-role"], []⟩
        emptyKubeconfig (fun _ => "no") (fun _ => none) "KEY" "/t" "/ca" =
      { result := Except.ok (), state := ⟨[], ["u-u-role"], []⟩,
        effects := [Effect.promptBindingOverwrite "no"], tempFiles := [],
        outConfig := emptyKubeconfig } :=
  (decline_aborts ⟨"u", none, [⟨"c", "s", "Q"⟩], 0⟩ ⟨[], ["u-u-role"], []⟩
    emptyKubeconfig (fun _ => "no") (fun _ => none) "KEY" "/t" "/ca").1
    (by decide) (by decide)

/-- C5 (amended): a pre-existing RBAC binding under the computed name is destructively
replaced, never merged: the only binding deletion a run can emit names the computed
binding, requires that it pre-existed, and requires the binding-overwrite prompt to
have been answered `y`/`Y`.  A pre-existing CSR under the computed name is also
destructively replaced (deleted, then recreated, never merged) but WITHOUT any
confirmation — the original claim's "only after explicit interactive confirmation"
fails for the CSR: see the counterexample. -/
theorem destructive_replacement (cfg : Cfg) (st0 : ClusterState) (out0 : KubeconfigFile)
    (answers : Nat → String) (cert : Nat → Option String) (keyPem tmp caTmp : String) :
    (∀ n, Effect.deleteClusterRoleBinding n
        ∈ (generate_monitor_config cfg st0 out0 answers cert keyPem tmp caTmp).effects →
      n = role_binding_name cfg.monitor_user cfg.existing_role ∧
      n ∈ st0.bindings ∧ isYes (answers 0) = true) ∧
    (∀ n, Effect.deleteCsr n
        ∈ (generate_monitor_config cfg st0 out0 answers cert keyPem tmp caTmp).effects →
      n = cert_request_name cfg.monitor_user ∧
      cert_request_name cfg.monitor_user ∈ st0.csrs) ∧
    (cert_request_name cfg.monitor_user ∈ st0.csrs →
      Effect.createCsr (cert_request_name cfg.monitor_user)
        ∈ (generate_monitor_config cfg st0 out0 answers cert keyPem tmp caTmp).effects →
      [Effect.deleteCsr (cert_request_name cfg.monitor_user),
       Effect.createCsr (cert_request_name cfg.monitor_user)].Sublist
        (generate_monitor_config cfg st0 out0 answers cert keyPem tmp
          caTmp).effects) := by
  refine ⟨?_, ?_, ?_⟩
  · intro n h
    simp only [generate_monitor_config] at h
    by_cases hbm : role_binding_name cfg.monitor_user cfg.existing_role ∈ st0.bindings
    · by_cases hy : isYes (answers 0) = true
      · rw [if_pos hbm, if_pos hy] at h
        have h2 := rolePhase_mem_deleteBinding cfg _ out0 cert keyPem tmp caTmp _ _ n h
        simp at h2
        exact ⟨h2, h2 ▸ hbm, hy⟩
      · rw [if_pos hbm, if_neg hy] at h
        simp at h
    · rw [if_neg hbm] at h
      have h2 := rolePhase_mem_deleteBinding cfg _ out0 cert keyPem tmp caTmp _ _ n h
      simp at h2
  · intro n h
    simp only [generate_monitor_config] at h
    by_cases hbm : role_binding_name cfg.monitor_user cfg.existing_role ∈ st0.bindings
    · by_cases hy : isYes (answers 0) = true
      · rw [if_pos hbm, if_pos hy] at h
        have h2 := rolePhase_mem_deleteCsr cfg _ out0 cert keyPem tmp caTmp _ _ n h
        rcases h2 with h2 | h2
        · simp at h2
        · exact ⟨h2.1, h2.2⟩
      · rw [if_pos hbm, if_neg hy] at h
        simp at h
    · rw [if_neg hbm] at h
      have h2 := rolePhase_mem_deleteCsr cfg _ out0 cert keyPem tmp caTmp _ _ n h
      rcases h2 with h2 | h2
      · simp at h2
      · exact ⟨h2.1, h2.2⟩
  · intro hcs hcr
    simp only [generate_monitor_config] at hcr ⊢
    by_cases hbm : role_binding_name cfg.monitor_user cfg.existing_role ∈ st0.bindings
    · by_cases hy : isYes (answers 0) = true
      · rw [if_pos hbm, if_pos hy] at hcr ⊢
        exact rolePhase_csr_replaced cfg _ out0 cert keyPem tmp caTmp _ _ hcs (by simp)
          hcr
      · rw [if_pos hbm, if_neg hy] at hcr
        simp at hcr
    · rw [if_neg hbm] at hcr ⊢
      exact rolePhase_csr_replaced cfg _ out0 cert keyPem tmp caTmp _ _ hcs (by simp)
        hcr

/-- C5 counterexample: with a pre-existing CSR under the computed name, a run with no
pre-existing binding or role deletes and recreates the CSR while consuming no prompt at
all — the destructive CSR replacement happens without interactive confirmation. -/
theorem csr_replace_counterexample :
    Effect.deleteCsr "u-cr"
      ∈ (generate_monitor_config ⟨"u", none, [⟨"c", "s", "Q"⟩], 0⟩ ⟨[], [], ["u-cr"]⟩
          emptyKubeconfig (fun _ => "n") (fun _ => some "QQ==") "KEY" "/t"
          "/ca").effects ∧
    (generate_monitor_config ⟨"u", none, [⟨"c", "s", "Q"⟩], 0⟩ ⟨[], [], ["u-cr"]⟩
        emptyKubeconfig (fun _ => "n") (fun _ => some "QQ==") "KEY" "/t"
        "/ca").effects.all (fun e => !(e.isPrompt)) = true := by
  have happ : approveLoop (fun _ => some "QQ==") 0 = Except.ok "QQ==" := by
    rw [approveLoop_eq]
  have hrun : generate_monitor_config ⟨"u", none, [⟨"c", "s", "Q"⟩], 0⟩
      ⟨[], [], ["u-cr"]⟩ emptyKubeconfig (fun _ => "n") (fun _ => some "QQ==") "KEY"
      "/t" "/ca"
      = certPhase ⟨"u", none, [⟨"c", "s", "Q"⟩], 0⟩
        ⟨["u-role"], ["u-u-role"], ["u-cr"]⟩ emptyKubeconfig (fun _ => some "QQ==")
        "KEY" "/t" "/ca"
        [Effect.createClusterRole "u-role",
         Effect.createClusterRoleBinding "u-u-role" "u-role" "u"] := rfl
  rw [hrun, certPhase_eq_ok_replace _ _ _ _ _ _ _ _ "QQ==" (by decide) happ]
  exact ⟨by decide, by decide⟩

/-- C5 witness: a deleted binding implies its pre-existence and an affirmative answer
to the binding-overwrite prompt. -/
theorem destructive_replacement_witness :
    "u-u-role" = role_binding_name "u" none ∧
    "u-u-role" ∈ (⟨["u-role"], ["u-u-role"], []⟩ : ClusterState).bindings ∧
    isYes ((fun n => if n = 0 then "y" else "n") 0) = true :=
  (destructive_replacement ⟨"u", none, [⟨"c", "s", "Q"⟩], 0⟩
    ⟨["u-role"], ["u-u-role"], []⟩ emptyKubeconfig (fun n => if n = 0 then "y" else "n")
    (fun _ => none) "KEY" "/t" "/ca").1 "u-u-role" (by decide)

/-- C9: on every exit path of a run — declined prompt, `RoleNotFound`,
`CertificateTimeout`, or success — the temporary key and certificate files holding
secret material are removed: the temporary directory holding `monitor.key` and
`monitor.crt` is removed when its `with` block exits, the CA temp file with its own
`with` block, and no temporary file remains on disk afterwards. -/
theorem temp_files_removed (cfg : Cfg) (st0 : ClusterState) (out0 : KubeconfigFile)
    (answers : Nat → String) (cert : Nat → Option String) (keyPem tmp caTmp : String) :
    (generate_monitor_config cfg st0 out0 answers cert keyPem tmp caTmp).tempFiles
      = [] := by
  simp only [generate_monitor_config]
  by_cases hbm : role_binding_name cfg.monitor_user cfg.existing_role ∈ st0.bindings
  · by_cases hy : isYes (answers 0) = true
    · rw [if_pos hbm, if_pos hy]
      exact rolePhase_tempFiles cfg _ out0 cert keyPem tmp caTmp _ _
    · rw [if_pos hbm, if_neg hy]
  · rw [if_neg hbm]
    exact rolePhase_tempFiles cfg _ out0 cert keyPem tmp caTmp _ _

/-- C10: for each of the two overwrite prompts, exactly the strings `y` and `Y` are
affirmative.  Every other stdin answer (such as `yes`, `Yes`, or the empty string)
declines and terminates the run at the prompt, while `y`/`Y` proceed and delete the
pre-existing resource. -/
theorem prompt_affirmative (cfg : Cfg) (st0 : ClusterState) (out0 : KubeconfigFile)
    (answers : Nat → String) (cert : Nat → Option String) (keyPem tmp caTmp : String) :
    (∀ a : String, isYes a = true ↔ (a = "y" ∨ a = "Y")) ∧
    (role_binding_name cfg.monitor_user cfg.existing_role ∈ st0.bindings →
      ¬ (answers 0 = "y" ∨ answers 0 = "Y") →
      generate_monitor_config cfg st0 out0 answers cert keyPem tmp caTmp =
        { result := Except.ok (), state := st0,
          effects := [Effect.promptBindingOverwrite (answers 0)], tempFiles := [],
          outConfig := out0 }) ∧
    (role_binding_name cfg.monitor_user cfg.existing_role ∈ st0.bindings →
      (answers 0 = "y" ∨ answers 0 = "Y") →
      Effect.deleteClusterRoleBinding
          (role_binding_name cfg.monitor_user cfg.existing_role)
        ∈ (generate_monitor_config cfg st0 out0 answers cert keyPem tmp
            caTmp).effects) ∧
    (role_binding_name cfg.monitor_user cfg.existing_role ∉ st0.bindings →
      role_name cfg.monitor_user cfg.existing_role ∈ st0.roles →
      pyTruthy cfg.existing_role = false →
      ¬ (answers 0 = "y" ∨ answers 0 = "Y") →
      generate_monitor_config cfg st0 out0 answers cert keyPem tmp caTmp =
        { result := Except.ok (), state := st0,
          effects := [Effect.promptRoleOverwrite (answers 0)], tempFiles := [],
          outConfig := out0 }) ∧
    (role_binding_name cfg.monitor_user cfg.existing_role ∉ st0.bindings →
      role_name cfg.monitor_user cfg.existing_role ∈ st0.roles →
      pyTruthy cfg.existing_role = false →
      (answers 0 = "y" ∨ answers 0 = "Y") →
      Effect.deleteClusterRole (role_name cfg.monitor_user cfg.existing_role)
        ∈ (generate_monitor_config cfg st0 out0 answers cert keyPem tmp
            caTmp).effects) := by
  have hiff : ∀ a : String, isYes a = true ↔ (a = "y" ∨ a = "Y") := by
    intro a
    simp [isYes]
  refine ⟨hiff, ?_, ?_, ?_, ?_⟩
  · intro hbm hy
    exact run_decline_binding cfg st0 out0 answers cert keyPem tmp caTmp hbm
      (fun hcon => hy ((hiff (answers 0)).mp hcon))
  · intro hbm hy
    exact run_yes_binding_deleted cfg st0 out0 answers cert keyPem tmp caTmp hbm
      ((hiff (answers 0)).mpr hy)
  · intro hbm hrole htr hy
    exact run_decline_role cfg st0 out0 answers cert keyPem tmp caTmp hbm hrole htr
      (fun hcon => hy ((hiff (answers 0)).mp hcon))
  · intro hbm hrole htr hy
    exact run_yes_role_deleted cfg st0 out0 answers cert keyPem tmp caTmp hbm hrole htr
      ((hiff (answers 0)).mpr hy)

/-- C10 witness: the answer `yes` is a decline — the run terminates at the
binding-overwrite prompt. -/
theorem prompt_affirmative_witness :
    generate_monitor_config ⟨"u", none, [⟨"c", "s", "Q"⟩], 0⟩ ⟨[], ["u-u-role"], []⟩
        emptyKubeconfig (fun _ => "yes") (fun _ => none) "KEY" "/t" "/ca" =
      { result := Except.ok (), state := ⟨[], ["u-u-role"], []⟩,
        effects := [Effect.promptBindingOverwrite "yes"], tempFiles := [],
        outConfig := emptyKubeconfig } :=
  (prompt_affirmative ⟨"u", none, [⟨"c", "s", "Q"⟩], 0⟩ ⟨[], ["u-u-role"], []⟩
    emptyKubeconfig (fun _ => "yes") (fun _ => none) "KEY" "/t" "/ca").2.1
    (by decide) (by decide)

/-- C8 (amended): every run that assembles the output kubeconfig over an absent or
empty destination file produces exactly one cluster entry with the source cluster's
name, server and CA bytes, exactly one user entry naming the monitor user with the
issued (decoded) certificate and the generated key embedded, and exactly one context
joining that cluster and user, set as the current context.  The original claim's
"never merged with an existing destination file" fails — the `kubectl config` calls
merge into a pre-existing destination: see the counterexample. -/
theorem kubeconfig_assembly (cfg : Cfg) (st0 : ClusterState) (answers : Nat → String)
    (cert : Nat → Option String) (keyPem tmp caTmp : String) (c : String)
    (hw : Effect.wroteKubeconfig
      ∈ (generate_monitor_config cfg st0 emptyKubeconfig answers cert keyPem tmp
          caTmp).effects)
    (happ : approveLoop cert 0 = Except.ok c) :
    (generate_monitor_config cfg st0 emptyKubeconfig answers cert keyPem tmp
        caTmp).outConfig =
      { clusters := [⟨cfg.cluster_name, cfg.cluster_server, b64decode cfg.k8s_ca⟩],
        users := [⟨cfg.monitor_user, b64decode c, keyPem⟩],
        contexts := [⟨cfg.cluster_name ++ "-" ++ cfg.monitor_user, cfg.cluster_name,
          cfg.monitor_user⟩],
        currentContext := some (cfg.cluster_name ++ "-" ++ cfg.monitor_user) } := by
  rw [← create_new_kubeconfig_empty cfg (b64decode c) keyPem]
  simp only [generate_monitor_config] at hw ⊢
  by_cases hbm : role_binding_name cfg.monitor_user cfg.existing_role ∈ st0.bindings
  · by_cases hy : isYes (answers 0) = true
    · rw [if_pos hbm, if_pos hy] at hw ⊢
      exact rolePhase_outConfig cfg _ emptyKubeconfig cert keyPem tmp caTmp _ _ c happ
        (by simp) hw
    · rw [if_pos hbm, if_neg hy] at hw
      simp at hw
  · rw [if_neg hbm] at hw ⊢
    exact rolePhase_outConfig cfg _ emptyKubeconfig cert keyPem tmp caTmp _ _ c happ
      (by simp) hw

/-- C8 counterexample: a successful run whose destination file already holds a foreign
cluster entry ends with TWO cluster entries — the `kubectl config` subcommands merge
into an existing destination file instead of producing a fresh one. -/
theorem kubeconfig_merge_counterexample :
    (generate_monitor_config ⟨"u", none, [⟨"c", "s", "Q"⟩], 0⟩ ⟨[], [], []⟩
        ⟨[⟨"other", "so", []⟩], [], [], none⟩ (fun _ => "n") (fun _ => some "QQ==")
        "KEY" "/t" "/ca").result = Except.ok () ∧
    Effect.wroteKubeconfig
      ∈ (generate_monitor_config ⟨"u", none, [⟨"c", "s", "Q"⟩], 0⟩ ⟨[], [], []⟩
          ⟨[⟨"other", "so", []⟩], [], [], none⟩ (fun _ => "n") (fun _ => some "QQ==")
          "KEY" "/t" "/ca").effects ∧
    (generate_monitor_config ⟨"u", none, [⟨"c", "s", "Q"⟩], 0⟩ ⟨[], [], []⟩
        ⟨[⟨"other", "so", []⟩], [], [], none⟩ (fun _ => "n") (fun _ => some "QQ==")
        "KEY" "/t" "/ca").outConfig.clusters.length = 2 := by
  have happ : approveLoop (fun _ => some "QQ==") 0 = Except.ok "QQ==" := by
    rw [approveLoop_eq]
  have hrun : generate_monitor_config ⟨"u", none, [⟨"c", "s", "Q"⟩], 0⟩ ⟨[], [], []⟩
      ⟨[⟨"other", "so", []⟩], [], [], none⟩ (fun _ => "n") (fun _ => some "QQ==") "KEY"
      "/t" "/ca"
      = certPhase ⟨"u", none, [⟨"c", "s", "Q"⟩], 0⟩ ⟨["u-role"], ["u-u-role"], []⟩
        ⟨[⟨"other", "so", []⟩], [], [], none⟩ (fun _ => some "QQ==") "KEY" "/t" "/ca"
        [Effect.createClusterRole "u-role",
         Effect.createClusterRoleBinding "u-u-role" "u-role" "u"] := rfl
  rw [hrun, certPhase_eq_ok_fresh _ _ _ _ _ _ _ _ "QQ==" (by decide) happ]
  exact ⟨by decide, by decide, by decide⟩

/-- C8 witness: a successful run over an empty destination yields exactly one cluster,
one user with the decoded certificate and key embedded, and one current context. -/
theorem kubeconfig_assembly_witness :
    (generate_monitor_config ⟨"u", none, [⟨"c", "s", "Q"⟩], 0⟩ ⟨[], [], []⟩
        emptyKubeconfig (fun _ => "n") (fun _ => some "QQ==") "KEY" "/t"
        "/ca").outConfig =
      { clusters := [⟨"c", "s", []⟩], users := [⟨"u", [65], "KEY"⟩],
        contexts := [⟨"c-u", "c", "u"⟩], currentContext := some "c-u" } := by
  have happ : approveLoop (fun _ => some "QQ==") 0 = Except.ok "QQ==" := by
    rw [approveLoop_eq]
  have hw : Effect.wroteKubeconfig
      ∈ (generate_monitor_config ⟨"u", none, [⟨"c", "s", "Q"⟩], 0⟩ ⟨[], [], []⟩
          emptyKubeconfig (fun _ => "n") (fun _ => some "QQ==") "KEY" "/t"
          "/ca").effects := by
    have hrun : generate_monitor_config ⟨"u", none, [⟨"c", "s", "Q"⟩], 0⟩ ⟨[], [], []⟩
        emptyKubeconfig (fun _ => "n") (fun _ => some "QQ==") "KEY" "/t" "/ca"
        = certPhase ⟨"u", none, [⟨"c", "s", "Q"⟩], 0⟩ ⟨["u-role"], ["u-u-role"], []⟩
          emptyKubeconfig (fun _ => some "QQ==") "KEY" "/t" "/ca"
          [Effect.createClusterRole "u-role",
           Effect.createClusterRoleBinding "u-u-role" "u-role" "u"] := rfl
    rw [hrun, certPhase_eq_ok_fresh _ _ _ _ _ _ _ _ "QQ==" (by decide) happ]
    decide
  exact kubeconfig_assembly ⟨"u", none, [⟨"c", "s", "Q"⟩], 0⟩ ⟨[], [], []⟩
    (fun _ => "n") (fun _ => some "QQ==") "KEY" "/t" "/ca" "QQ==" hw happ
